import Mathlib

/-!
Verification of `main.py` (ESP32_YOLO_OBJECT_DETECTION).

The Python source is shallowly embedded: pure fragments become Lean
functions, stateful methods become explicit state-passing functions, and
the effects that matter to the claims (HTTP requests issued, exceptions
raised, thread-pool completion order) are made explicit parameters or
explicit parts of the return value.
-/

namespace ESP32

/-! ## `announce_objects` (main.py lines 150-161)

`announce_objects(self, objects)` mutates `self.last_announced`.  We embed it
as a function from the current `last_announced` and the argument `objects`
to the pair (the `new_objects` set that is spoken when non-empty, the new
`last_announced`).  Python `set`s of strings become `Finset String`. -/

/-- Embedding of `announce_objects`.  Line 151 `if not objects: return`
returns early without touching `self.last_announced`; otherwise line 154
computes `new_objects = objects - self.last_announced` and line 161 stores
`self.last_announced = objects`.  The first component is the set of labels
spoken (`engine.say`, lines 155-159): empty iff nothing is announced. -/
def announce_objects (last_announced objects : Finset String) :
    Finset String × Finset String :=
  if objects = ∅ then
    (∅, last_announced)
  else
    let new_objects := objects \ last_announced
    (new_objects, objects)

/-! ## `capture_image` cache-defeating parameter (main.py line 104)

The request URL is `f"{self.esp32_url}/capture?_cb={int(time.time())}"`.
`time.time()` is wall-clock seconds as a float; `int(...)` truncates to
whole seconds.  We model wall-clock time in milliseconds as a `Nat`, so
`int(time.time())` is division by 1000. -/

/-- The value of the `_cb` query parameter when the call happens at
wall-clock time `t_ms` milliseconds: `int(time.time())`, i.e. whole
seconds. -/
def cb_param (t_ms : Nat) : Nat := t_ms / 1000

/-- The full capture request URL of line 104. -/
def capture_request_url (esp32_url : String) (t_ms : Nat) : String :=
  esp32_url ++ "/capture?_cb=" ++ toString (cb_param t_ms)

/-! ## `run` (main.py lines 163-188)

The body of each `while True` iteration (capture, detect, save, announce,
display) is abstracted to its outcome: it either completes (possibly
pressing `q`, which `break`s at line 179) or raises an exception from one
of the stages.  The decisive structure is that the `try` of line 166 wraps
the WHOLE `while` loop and the `except Exception` handler of line 185 sits
outside it, so an exception raised in any iteration propagates out of the
loop, is logged once, and the loop is not resumed. -/

/-- The stage of an iteration whose call raised. -/
inductive StageError where
  | detector
  | storage
  | announcer
deriving DecidableEq, Repr

/-- Outcome of one planned iteration of the loop body (lines 168-181). -/
inductive IterOutcome where
  | ok (quit : Bool)
  | raised (e : StageError)
deriving DecidableEq, Repr

/-- Embedding of the `run` loop over a finite plan of iteration outcomes
(the real loop is unbounded; a plan is the environment's behaviour for the
iterations it would reach).  Returns the number of iterations that began
and the exception logged by the `except Exception` handler of lines
185-186 (`none` when the loop ended by `break` or by exhausting the plan).
A raised outcome ends the recursion because the handler is OUTSIDE the
`while` loop. -/
def run : List IterOutcome → Nat × Option StageError
  | [] => (0, none)
  | .ok true :: _ => (1, none)
  | .ok false :: rest => ((run rest).1 + 1, (run rest).2)
  | .raised e :: _ => (1, some e)

/-! ## `verify_esp32_camera` (main.py lines 34-57)

The two HTTP calls are modelled by their responses, passed in as
arguments; a `.error` response stands for a raised
`requests.RequestException`.  The return value is paired with the list of
requests the function issued, so "without issuing the second-stage
capture request" is a statement about the embedding, not a gloss. -/

/-- A request issued by the probe: `GET /status` or `GET /capture`. -/
inductive Req where
  | statusReq
  | captureReq
deriving DecidableEq, Repr

/-- An HTTP response: its status code, and whether its body decodes as an
image under `Image.open` (only consulted for the capture response). -/
structure HttpResp where
  status_code : Nat
  decodable : Bool
deriving DecidableEq, Repr

/-- Embedding of `verify_esp32_camera`.  `statusResp` / `captureResp` are
the responses the network would give to the two requests; `.error ()` is a
`requests.RequestException`, caught at line 56.  The bare `except` of line
53 catches an undecodable body.  Second component: the requests actually
issued. -/
def verify_esp32_camera (ip : String)
    (statusResp captureResp : Except Unit HttpResp) :
    Option String × List Req :=
  let base_url := "http://" ++ ip
  match statusResp with
  | .error _ => (none, [.statusReq])
  | .ok st =>
    if st.status_code ≠ 200 then (none, [.statusReq])
    else
      match captureResp with
      | .error _ => (none, [.statusReq, .captureReq])
      | .ok cap =>
        if cap.status_code ≠ 200 then (none, [.statusReq, .captureReq])
        else if cap.decodable then (some base_url, [.statusReq, .captureReq])
        else (none, [.statusReq, .captureReq])

/-! ## `save_image` filename (main.py lines 138-148) -/

/-- Lexicographic comparison of character sequences by code point, as
Python's `<=` on `str` compares (and Lean's `String` order does too, but
through non-reducing machinery, so spelled out here). -/
def charsLe : List Char → List Char → Bool
  | [], _ => true
  | _ :: _, [] => false
  | a :: as, b :: bs =>
    if a < b then true
    else if b < a then false
    else charsLe as bs

/-- Python `s1 <= s2` on strings. -/
def pyStrLe (a b : String) : Bool := charsLe a.data b.data

/-- Embedding of line 143, `objects_str = "-".join(sorted(objects))`:
Python's `sorted` on a set of strings is a lexicographically sorted list
of its elements; the argument list is one iteration order of that set. -/
def objects_str (objects : List String) : String :=
  String.intercalate "-"
    (List.insertionSort (fun a b => pyStrLe a b = true) objects)

/-- Embedding of line 144, `filename = f"{timestamp}_{objects_str}.jpg"`. -/
def save_filename (timestamp : String) (objects : List String) : String :=
  timestamp ++ "_" ++ objects_str objects ++ ".jpg"

/-! ## `get_default_gateway_network` (main.py lines 59-75) -/

/-- A Python value of type `int` or `str`, as compared at line 71. -/
inductive PyVal where
  | int (n : Int)
  | str (s : String)
deriving DecidableEq, Repr

/-- Python `==` across `int` and `str`: values of distinct types are never
equal. -/
def pyEq : PyVal → PyVal → Bool
  | .int a, .int b => a == b
  | .str a, .str b => a == b
  | _, _ => false

/-- Python `!=`. -/
def pyNe (a b : PyVal) : Bool := !(pyEq a b)

/-- The guard of line 71, `if(third_octet != '0' or third_octet != '1')`:
`third_octet` is an `int` (line 70), `'0'` and `'1'` are `str` literals. -/
def mirror_guard (third_octet : Int) : Bool :=
  pyNe (.int third_octet) (.str "0") || pyNe (.int third_octet) (.str "1")

/-- Line 72, `reverse_third = '1' if third_octet == 0 else '0'` (an
`int`-to-`int` comparison). -/
def reverse_third (third_octet : Int) : String :=
  if third_octet = 0 then "1" else "0"

/-- Python `s.split(sep)` for a one-character separator, on the character
sequence: `"".split('.') = [""]`, and each separator occurrence opens a new
group. -/
def splitChars (sep : Char) : List Char → List (List Char)
  | [] => [[]]
  | c :: cs =>
    match splitChars sep cs with
    | [] => [[]]
    | g :: gs => if c = sep then [] :: g :: gs else (c :: g) :: gs

/-- Python `gateway.split('.')` (lines 66, 70, 73). -/
def pySplitDot (s : String) : List String :=
  (splitChars '.' s.data).map String.mk

/-- Python `int(s)` on the plain decimal strings this program feeds it;
`none` is the `ValueError` raised on a non-numeric argument. -/
def pyInt (s : String) : Option Int :=
  if s.data ≠ [] ∧ s.data.all (fun c => c.isDigit) then
    some (s.data.foldl
      (fun n c => 10 * n + ((c.toNat : Int) - ('0'.toNat : Int))) 0)
  else none

/-- Embedding of `get_default_gateway_network` from the gateway address
string (the routing-table lookup of lines 61-65 is the argument).
`.error "IndexError"` is Python's error for `parts[-2]` on a list shorter
than 2; `.error "ValueError"` is the one `int()` raises on a non-numeric
octet. -/
def get_default_gateway_network (gateway : String) :
    Except String (String × Option String) :=
  let parts := pySplitDot gateway
  let base_ip := String.intercalate "." (parts.take 3)
  if parts.length < 2 then .error "IndexError"
  else
    match pyInt (parts.getD (parts.length - 2) "") with
    | none => .error "ValueError"
    | some third_octet =>
      let reverse_ip : Option String := none
      let reverse_ip :=
        if mirror_guard third_octet then
          some (String.intercalate "." (parts.take 2) ++ "."
            ++ reverse_third third_octet)
        else reverse_ip
      .ok (base_ip, reverse_ip)

/-! ## `discover_esp32` network list (main.py lines 79-82)

Line 80-81 binds `networks = [base_ip]` only when `reverse_ip` is `None`
(a conditionally-bound variable, modelled as an `Option`); line 82 then
rebinds `networks = [base_ip, reverse_ip]` unconditionally. -/

/-- Embedding of lines 80-82: the value of `networks` after line 82. -/
def discover_networks (base_ip : String) (reverse_ip : Option String) :
    List (Option String) :=
  let networks : Option (List (Option String)) :=
    if reverse_ip = none then some [some base_ip] else none
  let networks : List (Option String) := [some base_ip, reverse_ip]
  networks

/-! ## `discover_esp32` scanning (main.py lines 84-99)

The 50-worker thread pool determines only the order in which
`concurrent.futures.as_completed` yields the probe futures; that order is
abstracted into an explicit completion order per prefix (a list of host
indices), quantified over in the theorems, so every concurrency cap and
every schedule is covered.  The probe itself (`verify_esp32_camera`
applied to a live network) is abstracted into its result function
`verify`. -/

/-- The address probed for host index `i` on prefix `network` (line 89,
`f"{network}.{i}"`). -/
def addr (network : String) (i : Nat) : String :=
  network ++ "." ++ toString i

/-- The host indices `range(1, 255)` of line 90. -/
def host_range : List Nat := List.range' 1 254

/-- Lines 93-97: consume probe results in completion order; the first
truthy result wins. -/
def first_result (verify : String → Option String) (network : String) :
    List Nat → Option String
  | [] => none
  | i :: rest =>
    match verify (addr network i) with
    | some url => some url
    | none => first_result verify network rest

/-- Embedding of the prefix loop of `discover_esp32` (lines 84-99): each
prefix is scanned in the completion order `order` assigns it; a match
returns immediately (lines 95-97); when every prefix is exhausted, the
`Exception` of line 99 is raised. -/
def discover_esp32 (verify : String → Option String)
    (order : String → List Nat) : List String → Except String String
  | [] => .error "Could not find ESP32 camera on any network"
  | network :: rest =>
    match first_result verify network (order network) with
    | some url => .ok url
    | none => discover_esp32 verify order rest

/-! ## Thread-pool timing of the scan (main.py lines 87-97)

A refinement of the scan model that tracks wall-clock time, to settle what
the scanner waits for.  Each future submitted by the dict comprehension of
lines 88-91 is a `Probe` with a completion time and a result.  All futures
are submitted before the first result is consumed.
`concurrent.futures.as_completed` yields them in completion-time order.
The `return` of line 97 leaves the `with` block of line 87, and
`ThreadPoolExecutor.__exit__` is `shutdown(wait=True)`: the method does
not actually return until every submitted future has completed. -/

/-- One submitted probe future: its completion time and its result. -/
structure Probe where
  time : Nat
  result : Option String
deriving DecidableEq, Repr

/-- The futures in the order `as_completed` yields them (line 93). -/
def completionOrder (probes : List Probe) : List Probe :=
  List.insertionSort (fun a b => a.time ≤ b.time) probes

/-- Number of futures submitted before any result is consumed: the dict
comprehension of lines 88-91 submits every host's probe up front. -/
def submittedCount (probes : List Probe) : Nat := probes.length

/-- The completion time of the future whose truthy result triggers the
`return` of line 97 (`none` when no probe matches). -/
def matchReportTime (probes : List Probe) : Option Nat :=
  ((completionOrder probes).find? (fun p => p.result.isSome)).map
    (fun p => p.time)

/-- The wall-clock time at which the scan of this prefix actually returns:
leaving the `with` block runs `shutdown(wait=True)`, which joins every
submitted future, so the return happens at the last completion time. -/
def scanReturnTime (probes : List Probe) : Nat :=
  probes.foldl (fun m p => max m p.time) 0

end ESP32

/-! ## Claims about the `run` loop -/

/-- C1: the claim asserts that an iteration whose stage raises is followed
by a further iteration.  Concrete counterexample: under the plan "first
iteration raises in the Detector stage, a second iteration would complete
normally", exactly one iteration begins — the handler outside the `while`
loop logs the error and the loop is over, so the second iteration never
begins. -/
theorem run_stage_failure_cex :
    ESP32.run [.raised .detector, .ok false] = (1, some .detector) ∧
      ¬ 2 ≤ (ESP32.run [.raised .detector, .ok false]).1 := by
  decide

/-- C1 (amended): a stage failure is caught and logged by the handler that
wraps the whole loop, but the loop then terminates rather than continuing:
if every iteration before the failing one completes without quitting, the
failing iteration is the last one to begin, and its error is the one
logged. -/
theorem run_stage_failure_terminates (pre : List ESP32.IterOutcome)
    (e : ESP32.StageError) (rest : List ESP32.IterOutcome)
    (hpre : ∀ o ∈ pre, o = .ok false) :
    ESP32.run (pre ++ .raised e :: rest) = (pre.length + 1, some e) := by
  induction pre with
  | nil => rfl
  | cons o pre ih =>
    have ho : o = .ok false := hpre o (List.mem_cons_self o pre)
    subst ho
    have ih' := ih fun o hmem => hpre o (List.mem_cons_of_mem _ hmem)
    simp [ESP32.run, ih']

/-- Witness for `run_stage_failure_terminates`: one completed iteration,
then a Storage failure, with a further iteration planned; the run counts
two iterations and logs the Storage error. -/
theorem run_stage_failure_terminates_witness :
    ESP32.run ([.ok false] ++ .raised .storage :: [.ok false]) =
      (1 + 1, some .storage) :=
  run_stage_failure_terminates [.ok false] .storage [.ok false] (by decide)

/-! ## Claims about `announce_objects` -/

/-- C2: the claim asserts that for EVERY label set, including the empty
set, the update replaces the stored state with its argument.  Concrete
counterexample: with stored state `{"dog"}` and argument `∅`, the code
takes the early return of line 151 and leaves the stored state `{"dog"}`,
not `∅`. -/
theorem announce_objects_empty_cex :
    (ESP32.announce_objects {"dog"} ∅).2 = {"dog"} ∧
      (ESP32.announce_objects {"dog"} ∅).2 ≠ (∅ : Finset String) := by
  constructor
  · rfl
  · intro h
    simp [ESP32.announce_objects] at h

/-- C2 (amended): for every NON-empty label set `objects`, the update
returns `objects \ last_announced` and replaces the stored state with
`objects` wholesale; for the empty label set the call returns early and
the stored state is unchanged (it is never replaced by `∅`). -/
theorem announce_objects_update (last_announced objects : Finset String) :
    (objects ≠ ∅ →
      ESP32.announce_objects last_announced objects =
        (objects \ last_announced, objects)) ∧
    ESP32.announce_objects last_announced ∅ = (∅, last_announced) := by
  constructor
  · intro h
    simp [ESP32.announce_objects, h]
  · simp [ESP32.announce_objects]

/-- Witness for `announce_objects_update` at stored state `{"cat"}` and
argument `{"cat", "bird"}`. -/
theorem announce_objects_update_witness :
    ESP32.announce_objects {"cat"} {"cat", "bird"} =
        ({"cat", "bird"} \ {"cat"}, {"cat", "bird"}) ∧
      ESP32.announce_objects {"cat"} ∅ = (∅, {"cat"}) :=
  ⟨(announce_objects_update {"cat"} {"cat", "bird"}).1 (by decide),
   (announce_objects_update {"cat"} {"cat", "bird"}).2⟩

/-- C6: starting from empty state, feeding `{"dog"}`, `{"dog"}`,
`{"dog","cat"}` to `announce_objects` yields new-label outputs `{"dog"}`,
`∅`, `{"cat"}`, and the final stored state is `{"dog","cat"}`. -/
theorem announce_objects_sequence :
    (ESP32.announce_objects ∅ {"dog"}).1 = {"dog"} ∧
      (ESP32.announce_objects (ESP32.announce_objects ∅ {"dog"}).2
        {"dog"}).1 = ∅ ∧
      (ESP32.announce_objects (ESP32.announce_objects
        (ESP32.announce_objects ∅ {"dog"}).2 {"dog"}).2
        {"dog", "cat"}).1 = {"cat"} ∧
      (ESP32.announce_objects (ESP32.announce_objects
        (ESP32.announce_objects ∅ {"dog"}).2 {"dog"}).2
        {"dog", "cat"}).2 = ({"dog", "cat"} : Finset String) := by
  refine ⟨?_, ?_, ?_, ?_⟩ <;> decide

/-! ## Claims about the cache-defeating parameter -/

/-- C7: the claim asserts that any two consecutive capture calls (also two
calls within the same iteration) carry unequal `_cb` values.  Concrete
counterexample: calls at 10.2s and 10.7s of wall-clock time both send
`_cb=10`, and the resulting request URLs coincide. -/
theorem cb_param_collision_cex :
    10200 < 10700 ∧
      ESP32.cb_param 10200 = ESP32.cb_param 10700 ∧
      ESP32.capture_request_url "http://192.168.1.7" 10200 =
        ESP32.capture_request_url "http://192.168.1.7" 10700 := by
  refine ⟨by decide, by decide, rfl⟩

/-- C7 (amended): the `_cb` parameter is monotone (non-decreasing) in
wall-clock time, and two calls at least one full second apart carry
strictly increasing — in particular unequal — values; but two calls within
the same wall-clock second carry equal values, so same-iteration
back-to-back calls may collide. -/
theorem cb_param_monotone (t1 t2 : Nat) :
    (t1 ≤ t2 → ESP32.cb_param t1 ≤ ESP32.cb_param t2) ∧
    (t1 + 1000 ≤ t2 → ESP32.cb_param t1 < ESP32.cb_param t2) := by
  constructor
  · intro h
    exact Nat.div_le_div_right h
  · intro h
    have h1 : ESP32.cb_param t1 + 1 ≤ ESP32.cb_param (t1 + 1000) := by
      unfold ESP32.cb_param
      omega
    have h2 : ESP32.cb_param (t1 + 1000) ≤ ESP32.cb_param t2 :=
      Nat.div_le_div_right h
    omega

/-- Witness for `cb_param_monotone` at times 1000ms and 2500ms. -/
theorem cb_param_monotone_witness :
    ESP32.cb_param 1000 ≤ ESP32.cb_param 2500 ∧
      ESP32.cb_param 1000 < ESP32.cb_param 2500 :=
  ⟨(cb_param_monotone 1000 2500).1 (by decide),
   (cb_param_monotone 1000 2500).2 (by decide)⟩

/-! ## Claims about `verify_esp32_camera` -/

/-- C8: whenever the first-stage status check fails — the request raises a
network-level exception, or the response carries a non-200 status code —
the probe returns "no match" (`none`) having issued only the status
request, never the capture request. -/
theorem verify_status_failure_no_capture (ip : String)
    (statusResp captureResp : Except Unit ESP32.HttpResp)
    (hfail : statusResp = .error () ∨
      ∃ st, statusResp = .ok st ∧ st.status_code ≠ 200) :
    ESP32.verify_esp32_camera ip statusResp captureResp =
      (none, [.statusReq]) := by
  rcases hfail with h | ⟨st, hst, hcode⟩
  · subst h; rfl
  · subst hst
    simp [ESP32.verify_esp32_camera, hcode]

/-- Witness for `verify_status_failure_no_capture` at a concrete address
whose status check answers 404; the capture response on offer is a perfect
camera response, yet it is never requested. -/
theorem verify_status_failure_no_capture_witness :
    ESP32.verify_esp32_camera "192.168.1.9" (.ok ⟨404, false⟩)
        (.ok ⟨200, true⟩) = (none, [.statusReq]) :=
  verify_status_failure_no_capture "192.168.1.9" (.ok ⟨404, false⟩)
    (.ok ⟨200, true⟩) (Or.inr ⟨⟨404, false⟩, rfl, by decide⟩)

/-! ## Claims about the saved-image filename

`charsLe` is a total preorder that is antisymmetric, so sorting by it
normalises any presentation order of a label set. -/

theorem charsLe_total (x y : List Char) :
    ESP32.charsLe x y = true ∨ ESP32.charsLe y x = true := by
  induction x generalizing y with
  | nil => exact Or.inl rfl
  | cons a as ih =>
    cases y with
    | nil => exact Or.inr rfl
    | cons b bs =>
      by_cases h1 : a < b
      · left; simp [ESP32.charsLe, h1]
      · by_cases h2 : b < a
        · right; simp [ESP32.charsLe, h2]
        · rcases ih bs with h | h
          · left; simp [ESP32.charsLe, h1, h2, h]
          · right; simp [ESP32.charsLe, h1, h2, h]

theorem charsLe_trans :
    ∀ x y z : List Char, ESP32.charsLe x y = true →
      ESP32.charsLe y z = true → ESP32.charsLe x z = true
  | [], _, _, _, _ => rfl
  | _ :: _, [], _, h1, _ => by simp [ESP32.charsLe] at h1
  | _ :: _, _ :: _, [], _, h2 => by simp [ESP32.charsLe] at h2
  | a :: as, b :: bs, c :: cs, h1, h2 => by
    have hab : a < b ∨ (a = b ∧ ESP32.charsLe as bs = true) := by
      by_cases h : a < b
      · exact Or.inl h
      · by_cases h' : b < a
        · simp [ESP32.charsLe, h, h'] at h1
        · exact Or.inr ⟨le_antisymm (not_lt.mp h') (not_lt.mp h),
            by simpa [ESP32.charsLe, h, h'] using h1⟩
    have hbc : b < c ∨ (b = c ∧ ESP32.charsLe bs cs = true) := by
      by_cases h : b < c
      · exact Or.inl h
      · by_cases h' : c < b
        · simp [ESP32.charsLe, h, h'] at h2
        · exact Or.inr ⟨le_antisymm (not_lt.mp h') (not_lt.mp h),
            by simpa [ESP32.charsLe, h, h'] using h2⟩
    rcases hab with hab | ⟨hab, hrec1⟩
    · rcases hbc with hbc | ⟨hbc, _⟩
      · simp [ESP32.charsLe, lt_trans hab hbc]
      · subst hbc; simp [ESP32.charsLe, hab]
    · subst hab
      rcases hbc with hbc | ⟨hbc, hrec2⟩
      · simp [ESP32.charsLe, hbc]
      · subst hbc
        simp [ESP32.charsLe, lt_irrefl, charsLe_trans as bs cs hrec1 hrec2]

theorem charsLe_antisymm :
    ∀ x y : List Char, ESP32.charsLe x y = true →
      ESP32.charsLe y x = true → x = y
  | [], [], _, _ => rfl
  | [], _ :: _, _, h2 => by simp [ESP32.charsLe] at h2
  | _ :: _, [], h1, _ => by simp [ESP32.charsLe] at h1
  | a :: as, b :: bs, h1, h2 => by
    by_cases h : a < b
    · simp [ESP32.charsLe, h, asymm h] at h2
    · by_cases h' : b < a
      · simp [ESP32.charsLe, h, h'] at h1
      · have hab : a = b := le_antisymm (not_lt.mp h') (not_lt.mp h)
        subst hab
        have e1 : ESP32.charsLe as bs = true := by
          simpa [ESP32.charsLe, h] using h1
        have e2 : ESP32.charsLe bs as = true := by
          simpa [ESP32.charsLe, h] using h2
        rw [charsLe_antisymm as bs e1 e2]

instance : IsTotal String (fun a b => ESP32.pyStrLe a b = true) :=
  ⟨fun a b => charsLe_total a.data b.data⟩

instance : IsTrans String (fun a b => ESP32.pyStrLe a b = true) :=
  ⟨fun a b c => charsLe_trans a.data b.data c.data⟩

instance : IsAntisymm String (fun a b => ESP32.pyStrLe a b = true) :=
  ⟨fun a b h1 h2 => by
    cases a with
    | mk da =>
      cases b with
      | mk db => exact congrArg String.mk (charsLe_antisymm da db h1 h2)⟩

/-- C9: the label segment of the saved filename is order-independent — two
presentations of the same label set (as lists that are permutations of one
another) produce the identical label segment, because line 143 sorts the
labels lexicographically before joining them with `-`. -/
theorem objects_str_perm_invariant (l1 l2 : List String)
    (hperm : l1.Perm l2) :
    ESP32.objects_str l1 = ESP32.objects_str l2 := by
  unfold ESP32.objects_str
  congr 1
  exact List.eq_of_perm_of_sorted
    (((List.perm_insertionSort _ l1).trans hperm).trans
      (List.perm_insertionSort _ l2).symm)
    (List.sorted_insertionSort _ l1)
    (List.sorted_insertionSort _ l2)

/-- Witness for `objects_str_perm_invariant`: `{"dog","cat"}` and
`{"cat","dog"}` yield the same segment, and that segment is `"cat-dog"`. -/
theorem objects_str_perm_invariant_witness :
    ESP32.objects_str ["dog", "cat"] = ESP32.objects_str ["cat", "dog"] ∧
      ESP32.objects_str ["cat", "dog"] = "cat-dog" :=
  ⟨objects_str_perm_invariant ["dog", "cat"] ["cat", "dog"] (by decide),
   by decide⟩

/-! ## Claims about `get_default_gateway_network` -/

/-- C4: the guard of line 71 compares the integer `third_octet` to the
string literals `'0'` and `'1'`, comparisons that are false for every
integer, so the guard is true for every integer and a mirrored prefix is
computed for every gateway the function succeeds on, regardless of the
octet's value. -/
theorem mirror_guard_always_true (t : Int) (gateway base_ip : String)
    (reverse_ip : Option String)
    (hok : ESP32.get_default_gateway_network gateway =
      .ok (base_ip, reverse_ip)) :
    ESP32.mirror_guard t = true ∧ reverse_ip.isSome = true := by
  refine ⟨rfl, ?_⟩
  have hg : ∀ u : Int, ESP32.mirror_guard u = true := fun _ => rfl
  simp only [ESP32.get_default_gateway_network, hg, if_true] at hok
  split at hok
  · exact absurd hok (by simp)
  · split at hok
    · exact absurd hok (by simp)
    · simp only [Except.ok.injEq, Prod.mk.injEq] at hok
      rw [← hok.2]
      rfl

/-- Witness for `mirror_guard_always_true` at gateway `192.168.1.1`: the
third octet is `1`, and the mirrored prefix is still computed
(`reverse_ip = "192.168.0"`). -/
theorem mirror_guard_always_true_witness :
    ESP32.mirror_guard 1 = true ∧
      (some "192.168.0" : Option String).isSome = true :=
  mirror_guard_always_true 1 "192.168.1.1" "192.168.1" (some "192.168.0")
    rfl

/-! ## Claims about the network scan -/

theorem first_result_none (verify : String → Option String)
    (network : String) (order : List Nat)
    (h : ∀ i ∈ order, verify (ESP32.addr network i) = none) :
    ESP32.first_result verify network order = none := by
  induction order with
  | nil => rfl
  | cons j rest ih =>
    have hj := h j (List.mem_cons_self j rest)
    simp only [ESP32.first_result, hj]
    exact ih fun i hi => h i (List.mem_cons_of_mem _ hi)

theorem first_result_unique (verify : String → Option String)
    (network u : String) (i₀ : Nat) (order : List Nat)
    (hmem : i₀ ∈ order) (hv : verify (ESP32.addr network i₀) = some u)
    (huniq : ∀ i ∈ order, i ≠ i₀ → verify (ESP32.addr network i) = none) :
    ESP32.first_result verify network order = some u := by
  induction order with
  | nil => simp at hmem
  | cons j rest ih =>
    by_cases hj : j = i₀
    · subst hj
      simp [ESP32.first_result, hv]
    · have hnone := huniq j (List.mem_cons_self j rest) hj
      simp only [ESP32.first_result, hnone]
      have hmem' : i₀ ∈ rest := by
        rcases List.mem_cons.mp hmem with h | h
        · exact absurd h.symm hj
        · exact h
      exact ih hmem' fun i hi hne => huniq i (List.mem_cons_of_mem _ hi) hne

/-- C3: (a) when exactly one address among the scanned prefixes hosts a
valid camera, `discover_esp32` returns that address's endpoint for EVERY
completion order (hence every concurrency cap and schedule); (b) when no
address is valid, it raises the line-99 exception and returns no
endpoint. -/
theorem discover_unique_or_none (verify : String → Option String)
    (order : String → List Nat) (networks : List String)
    (net₀ u : String) (i₀ : Nat) :
    (net₀ ∈ networks →
      (∀ n ∈ networks, (order n).Perm ESP32.host_range) →
      i₀ ∈ ESP32.host_range →
      verify (ESP32.addr net₀ i₀) = some u →
      (∀ n ∈ networks, ∀ i ∈ ESP32.host_range, ¬(n = net₀ ∧ i = i₀) →
        verify (ESP32.addr n i) = none) →
      ESP32.discover_esp32 verify order networks = .ok u) ∧
    ((∀ n ∈ networks, ∀ i ∈ order n, verify (ESP32.addr n i) = none) →
      ESP32.discover_esp32 verify order networks =
        .error "Could not find ESP32 camera on any network") := by
  constructor
  · intro hmem hperm hi hv huniq
    induction networks with
    | nil => simp at hmem
    | cons n rest ih =>
      by_cases hn : n = net₀
      · subst hn
        have hhead := List.mem_cons_self n rest
        have hio : i₀ ∈ order n := ((hperm n hhead).mem_iff).mpr hi
        have h2 : ESP32.first_result verify n (order n) = some u :=
          first_result_unique verify n u i₀ (order n) hio hv
            fun i hi' hne => huniq n hhead i
              (((hperm n hhead).mem_iff).mp hi') fun hc => hne hc.2
        simp [ESP32.discover_esp32, h2]
      · have hhead := List.mem_cons_self n rest
        have hnone : ESP32.first_result verify n (order n) = none :=
          first_result_none verify n (order n) fun i hi' =>
            huniq n hhead i (((hperm n hhead).mem_iff).mp hi')
              fun hc => hn hc.1
        simp only [ESP32.discover_esp32, hnone]
        have hmem' : net₀ ∈ rest := by
          rcases List.mem_cons.mp hmem with h | h
          · exact absurd h.symm hn
          · exact h
        exact ih hmem' (fun m hm => hperm m (List.mem_cons_of_mem _ hm))
          fun m hm i hi' hne => huniq m (List.mem_cons_of_mem _ hm) i hi' hne
  · intro hall
    induction networks with
    | nil => rfl
    | cons n rest ih =>
      have hnone : ESP32.first_result verify n (order n) = none :=
        first_result_none verify n (order n) fun i hi' =>
          hall n (List.mem_cons_self n rest) i hi'
      simp only [ESP32.discover_esp32, hnone]
      exact ih fun m hm i hi' => hall m (List.mem_cons_of_mem _ hm) i hi'

set_option maxRecDepth 40000 in
/-- Witness for `discover_unique_or_none`: with `192.168.1.7` the only
valid address among the two prefixes and the identity completion order,
the scan returns its endpoint; with no valid address at all, it raises. -/
theorem discover_unique_or_none_witness :
    ESP32.discover_esp32
        (fun a => if a = "192.168.1.7" then some "http://192.168.1.7"
          else none)
        (fun _ => ESP32.host_range) ["192.168.1", "192.168.0"] =
      .ok "http://192.168.1.7" ∧
    ESP32.discover_esp32 (fun _ => none) (fun _ => ESP32.host_range)
        ["192.168.1", "192.168.0"] =
      .error "Could not find ESP32 camera on any network" :=
  ⟨(discover_unique_or_none
      (fun a => if a = "192.168.1.7" then some "http://192.168.1.7"
        else none)
      (fun _ => ESP32.host_range) ["192.168.1", "192.168.0"]
      "192.168.1" "http://192.168.1.7" 7).1
    (by decide) (fun n _ => List.Perm.refl _) (by decide) (by decide)
    (by decide),
   (discover_unique_or_none (fun _ => none) (fun _ => ESP32.host_range)
      ["192.168.1", "192.168.0"] "192.168.1" "u" 7).2
    fun n _ i _ => rfl⟩

/-! ## Claims about what the scanner waits for -/

theorem scanReturnTime_init (l : List ESP32.Probe) :
    ∀ a : Nat, a ≤ l.foldl (fun m p => max m p.time) a := by
  induction l with
  | nil => exact fun a => le_refl a
  | cons p rest ih =>
    intro a
    exact le_trans (le_max_left a p.time) (ih (max a p.time))

theorem scanReturnTime_mem (l : List ESP32.Probe) (p : ESP32.Probe)
    (hp : p ∈ l) : ∀ a : Nat, p.time ≤ l.foldl (fun m q => max m q.time) a := by
  induction l with
  | nil => simp at hp
  | cons q rest ih =>
    intro a
    rcases List.mem_cons.mp hp with h | h
    · subst h
      exact le_trans (le_max_right a p.time) (scanReturnTime_init rest _)
    · exact ih h _

/-- C5: the claim asserts the scanner abandons outstanding probes without
waiting and that outstanding probes do not block its return.  Concrete
counterexample: two submitted probes, the matching one completing at time
1 and a non-matching one still running until time 100 — the match is
reported at time 1, yet the scan only returns at time 100 (the `with`
block's `shutdown(wait=True)` joins the outstanding future), and both
probes were submitted even though the match was the first completion. -/
theorem scan_waits_for_outstanding_cex :
    ESP32.matchReportTime [⟨1, some "http://192.168.1.7"⟩, ⟨100, none⟩] =
        some 1 ∧
      ESP32.scanReturnTime [⟨1, some "http://192.168.1.7"⟩, ⟨100, none⟩] =
        100 ∧
      ¬ ESP32.scanReturnTime [⟨1, some "http://192.168.1.7"⟩, ⟨100, none⟩]
        ≤ 1 ∧
      ESP32.submittedCount [⟨1, some "http://192.168.1.7"⟩, ⟨100, none⟩] =
        2 := by
  refine ⟨by decide, by decide, by decide, rfl⟩

/-- C5 (amended): every probe of the prefix is submitted before any result
is consumed, and once a probe reports a match the scanner stops consuming
results and returns that endpoint — but its return is blocked until every
submitted probe, outstanding ones included, has completed: the match
report time and every probe's completion time bound the actual return
time from below. -/
theorem scan_waits_for_outstanding (probes : List ESP32.Probe) (t : Nat)
    (h : ESP32.matchReportTime probes = some t) :
    t ≤ ESP32.scanReturnTime probes ∧
      ESP32.submittedCount probes = probes.length ∧
      ∀ p ∈ probes, p.time ≤ ESP32.scanReturnTime probes := by
  have hall : ∀ p ∈ probes, p.time ≤ ESP32.scanReturnTime probes :=
    fun p hp => scanReturnTime_mem probes p hp 0
  refine ⟨?_, rfl, hall⟩
  rcases Option.map_eq_some'.mp h with ⟨p, hfind, hpt⟩
  have hp : p ∈ probes :=
    (List.perm_insertionSort _ probes).subset (List.mem_of_find?_eq_some hfind)
  exact hpt ▸ hall p hp

/-- Witness for `scan_waits_for_outstanding` at the two-probe scenario of
the counterexample. -/
theorem scan_waits_for_outstanding_witness :
    1 ≤ ESP32.scanReturnTime [⟨1, some "http://192.168.1.7"⟩, ⟨100, none⟩]
      ∧ ESP32.submittedCount
          [⟨1, some "http://192.168.1.7"⟩, ⟨100, none⟩] = 2
      ∧ ∀ p ∈ [(⟨1, some "http://192.168.1.7"⟩ : ESP32.Probe),
          ⟨100, none⟩], p.time ≤ ESP32.scanReturnTime
            [⟨1, some "http://192.168.1.7"⟩, ⟨100, none⟩] :=
  scan_waits_for_outstanding
    [⟨1, some "http://192.168.1.7"⟩, ⟨100, none⟩] 1 (by decide)

/-! ## Claims about the `networks` list -/

/-- C10: line 82 rebinds `networks` unconditionally, so the conditional
binding of lines 80-81 has no effect: for every gateway result the scan
list is exactly `[base_ip, reverse_ip]` — and had `reverse_ip` been
`None`, the `None` entry would still be included in the scan list. -/
theorem discover_networks_unconditional (base_ip : String)
    (reverse_ip : Option String) :
    ESP32.discover_networks base_ip reverse_ip = [some base_ip, reverse_ip]
      ∧ none ∈ ESP32.discover_networks base_ip none := by
  exact ⟨rfl, by simp [ESP32.discover_networks]⟩
